import Mathlib

/-!
Verification development for the ASUHOMeasles surveillance pipeline.

The Python sources are shallowly embedded as Lean definitions:

- Gregorian dates are represented by their proleptic ordinal day number
  (the value of Python `date.toordinal`, day 1 = January 1 of year 1);
  `datetime.now()` is modelled by passing the calendar year together with
  the ordinal of the current day.  Python `//` on ints is floor division,
  which for the positive divisors used here coincides with Lean `Int`
  division `/`; Python `%` with a positive modulus coincides with `%` on
  Lean `Int`.
- Network fetches, HTML text and `re.search` are modelled as oracles
  passed in through small environment structures: the repository code is
  embedded exactly, while the outside world (HTTP responses, regex
  engine) is a parameter.
- pandas DataFrames become lists of records; `drop_duplicates(keep=last)`
  and boolean-mask filtering are embedded directly.
- pandas missing values (NaN) become `Option`; `fillna(0)` becomes
  `Option.getD 0`.
- Decimal arithmetic of `Series.round(2)` (numpy half-to-even rounding)
  is modelled over `ℚ`.
-/

/-! ## Calendar and epidemiological weeks (data_manager.py 247-279, state_data_scraper.py 89-121) -/

/-- Days contained in the years strictly before Gregorian year `y`
(so `daysInPriorYears y + 1` is the ordinal of January 1 of year `y`,
matching Python `date.toordinal`). -/
def daysInPriorYears (y : Nat) : Nat :=
  365 * (y - 1) + (y - 1) / 4 - (y - 1) / 100 + (y - 1) / 400

/-- Ordinal day number of January 4 of year `y` (the `jan4` value in
`get_current_epi_week`). -/
def jan4Ordinal (y : Nat) : Int :=
  (daysInPriorYears y : Int) + 4

/-- Python `datetime.weekday`: Monday = 0, ..., Sunday = 6.  Ordinal 1
(January 1 of year 1) is a Monday in the proleptic Gregorian calendar. -/
def pyWeekday (n : Int) : Int :=
  (n + 6) % 7

/-- The `week1_sunday` computation of `get_current_epi_week`
(data_manager.py 256-260): January 4 itself when it is a Sunday,
otherwise `jan4 - timedelta(days=(jan4_weekday + 1) % 7)`. -/
def week1Sunday (y : Nat) : Int :=
  let j4 := jan4Ordinal y
  let wd := pyWeekday j4
  if wd = 6 then j4 else j4 - (wd + 1) % 7

/-- Embedding of `get_current_epi_week` (data_manager.py 247-279; the
copy in state_data_scraper.py 89-121 is identical).  `y` is
`today.year` and `todayOrd` is the ordinal day number of `today`.
`timedelta.days` floors, so `days_diff` is the ordinal difference, and
Python `// 7` is Lean `/ 7` on `Int` here. -/
def get_current_epi_week (y : Nat) (todayOrd : Int) : Nat × Int :=
  let days_diff := todayOrd - week1Sunday y
  let current_epi_week : Int := days_diff / 7 + 1
  if current_epi_week ≤ 0 then
    (52, (y : Int) - 1)
  else if 53 ≤ current_epi_week then
    if pyWeekday (jan4Ordinal (y + 1)) ≤ 3 then (1, (y : Int) + 1)
    else (53, (y : Int))
  else
    (min current_epi_week.toNat 53, (y : Int))

/-! ## Weekly surveillance records (the rows produced by the scrapers) -/

/-- Fields of the dict returned by the per-state scrape functions
(data_manager.py 314-323 and the analogous returns for the other
states).  The `epi_week`, `epi_year` and `attribution` fields are added
later by `scrape_all_states`. -/
structure StateScrape where
  state : String
  state_name : String
  current_week_cases : Nat
  previous_week_cases : Nat
  data_source : String
  source_url : String
  last_updated : String
  update_schedule : String
deriving DecidableEq, Repr

/-- A full row of the weekly surveillance DataFrame / historical ledger
CSV: a `StateScrape` together with the epi-week key and the attribution
string added in `scrape_all_states`. -/
structure WeeklyRecord where
  state : String
  state_name : String
  current_week_cases : Nat
  previous_week_cases : Nat
  data_source : String
  source_url : String
  last_updated : String
  update_schedule : String
  epi_week : Nat
  epi_year : Int
  attribution : String
deriving DecidableEq, Repr

/-- The ledger key `(state, epi_week, epi_year)` used by
`drop_duplicates(subset=[state, epi_week, epi_year])`. -/
def recordKey (r : WeeklyRecord) : String × Nat × Int :=
  (r.state, r.epi_week, r.epi_year)

/-! ## Per-state scraping (data_manager.py 281-564) -/

/-- Environment for the scraping code: `fetch url` is the text content
of a successful `session.get(url)` + `BeautifulSoup.get_text()`, or
`none` when the request raises (every per-state scraper wraps its body
in `try/except` and returns `None` in that case); `search pat text`
models `re.search(pat, text, re.IGNORECASE)` followed by
`int(match.group(1))`, returning `none` when the pattern does not
match. -/
structure PageEnv where
  fetch : String → Option String
  search : String → String → Option Nat

def tx_outbreak_url : String :=
  "https://www.dshs.texas.gov/news-alerts/measles-outbreak-2025"

def nm_main_url : String :=
  "https://www.nmhealth.org/about/erd/ideb/mog/"

def ut_main_url : String :=
  "https://epi.utah.gov/measles-response/"

def ca_main_url : String :=
  "https://www.cdph.ca.gov/Programs/CID/DCDC/Pages/Immunization/measles.aspx"

def nv_main_url : String :=
  "https://dpbh.nv.gov/Reg/CD/measles/"

def az_main_url : String :=
  "https://www.azdhs.gov/preparedness/epidemiology-disease-control/infectious-disease-epidemiology/index.php#communicable-diseases"

/-- `case_patterns` of `scrape_texas_data` (data_manager.py 297-301). -/
def texas_case_patterns : List String :=
  ["(\\d+)\\s+cases?\\s+have\\s+been\\s+confirmed",
   "reporting\\s+(\\d+)\\s+confirmed\\s+cases",
   "total\\s+of\\s+(\\d+)\\s+measles\\s+cases"]

/-- `case_patterns` of `scrape_new_mexico_data` (data_manager.py 343-347). -/
def new_mexico_case_patterns : List String :=
  ["New\\s+Mexico.*?reports?\\s+(\\d+)\\s+measles\\s+cases?",
   "total\\s+of\\s+(\\d+)\\s+cases?",
   "(\\d+)\\s+confirmed\\s+cases?"]

/-- `case_patterns` of `scrape_utah_data` (data_manager.py 386-390). -/
def utah_case_patterns : List String :=
  ["total\\s+of\\s+(\\d+)\\s+positive\\s+measles\\s+cases",
   "(\\d+)\\s+confirmed\\s+cases?\\s+in\\s+Utah",
   "Utah.*?(\\d+).*?cases?"]

/-- `case_patterns` of `scrape_california_data` (data_manager.py 428-432). -/
def california_case_patterns : List String :=
  ["California.*?(\\d+).*?measles\\s+cases?",
   "(\\d+)\\s+confirmed\\s+cases?\\s+in\\s+California",
   "total\\s+of\\s+(\\d+)\\s+cases?"]

/-- The pattern loop shared by the scrapers (e.g. data_manager.py
303-308): `current_week_cases` starts at 0, the patterns are tried in
order, and the first match wins (`break`). -/
def firstPatternMatch (search : String → String → Option Nat)
    (patterns : List String) (text : String) : Nat :=
  match patterns with
  | [] => 0
  | p :: ps =>
    match search p text with
    | some v => v
    | none => firstPatternMatch search ps text

/-- Embedding of `scrape_texas_data` (data_manager.py 281-327): `now` is
the formatted `datetime.now()` string. -/
def scrape_texas_data (env : PageEnv) (now : String) : Option StateScrape :=
  match env.fetch tx_outbreak_url with
  | none => none
  | some text => some
    { state := "TX", state_name := "Texas",
      current_week_cases := firstPatternMatch env.search texas_case_patterns text,
      previous_week_cases := 0,
      data_source := "Texas Department of State Health Services",
      source_url := tx_outbreak_url, last_updated := now,
      update_schedule := "Weekly on Tuesdays" }

/-- Embedding of `scrape_new_mexico_data` (data_manager.py 329-371). -/
def scrape_new_mexico_data (env : PageEnv) (now : String) : Option StateScrape :=
  match env.fetch nm_main_url with
  | none => none
  | some text => some
    { state := "NM", state_name := "New Mexico",
      current_week_cases := firstPatternMatch env.search new_mexico_case_patterns text,
      previous_week_cases := 0,
      data_source := "New Mexico Department of Health",
      source_url := nm_main_url, last_updated := now,
      update_schedule := "Tuesday and Friday before noon MST" }

/-- Embedding of `scrape_utah_data` (data_manager.py 373-414). -/
def scrape_utah_data (env : PageEnv) (now : String) : Option StateScrape :=
  match env.fetch ut_main_url with
  | none => none
  | some text => some
    { state := "UT", state_name := "Utah",
      current_week_cases := firstPatternMatch env.search utah_case_patterns text,
      previous_week_cases := 0,
      data_source := "Utah Department of Health and Human Services",
      source_url := ut_main_url, last_updated := now,
      update_schedule := "Weekdays by 3:00 PM MST" }

/-- Embedding of `scrape_california_data` (data_manager.py 416-454). -/
def scrape_california_data (env : PageEnv) (now : String) : Option StateScrape :=
  match env.fetch ca_main_url with
  | none => none
  | some text => some
    { state := "CA", state_name := "California",
      current_week_cases := firstPatternMatch env.search california_case_patterns text,
      previous_week_cases := 0,
      data_source := "California Department of Public Health",
      source_url := ca_main_url, last_updated := now,
      update_schedule := "Weekly" }

/-- Embedding of `scrape_nevada_data` (data_manager.py 456-483): no
patterns are configured, `current_week_cases` is the hard-coded 0. -/
def scrape_nevada_data (env : PageEnv) (now : String) : Option StateScrape :=
  match env.fetch nv_main_url with
  | none => none
  | some _ => some
    { state := "NV", state_name := "Nevada",
      current_week_cases := 0,
      previous_week_cases := 0,
      data_source := "Nevada Division of Public and Behavioral Health",
      source_url := nv_main_url, last_updated := now,
      update_schedule := "Weekly" }

/-- Embedding of `scrape_arizona_data` (data_manager.py 485-512): no
patterns are configured, `current_week_cases` is the hard-coded 0. -/
def scrape_arizona_data (env : PageEnv) (now : String) : Option StateScrape :=
  match env.fetch az_main_url with
  | none => none
  | some _ => some
    { state := "AZ", state_name := "Arizona",
      current_week_cases := 0,
      previous_week_cases := 0,
      data_source := "Arizona Department of Health Services",
      source_url := az_main_url, last_updated := now,
      update_schedule := "Weekly" }

/-- The name / agency / update-schedule entries of `state_configs`
(data_manager.py 60-118), as used by the fallback branch of
`scrape_all_states`. -/
structure StateMeta where
  name : String
  agency : String
  update_schedule : String
deriving DecidableEq, Repr

def state_configs : String → StateMeta
  | "TX" => ⟨"Texas", "Texas Department of State Health Services", "Weekly on Tuesdays"⟩
  | "NM" => ⟨"New Mexico", "New Mexico Department of Health", "Tuesday and Friday before noon MST"⟩
  | "UT" => ⟨"Utah", "Utah Department of Health and Human Services", "Weekdays by 3:00 PM MST"⟩
  | "CA" => ⟨"California", "California Department of Public Health", "Weekly"⟩
  | "NV" => ⟨"Nevada", "Nevada Division of Public and Behavioral Health", "Weekly"⟩
  | "AZ" => ⟨"Arizona", "Arizona Department of Health Services", "Weekly"⟩
  | _ => ⟨"", "", ""⟩

/-- Iteration order of the `scrapers` dict in `scrape_all_states`
(data_manager.py 518-525; Python dicts preserve insertion order). -/
def stateOrder : List String :=
  ["TX", "NM", "UT", "CA", "NV", "AZ"]

/-- Dispatch of `scrape_all_states` to the per-state scrape function. -/
def scraperFor (env : PageEnv) (now : String) : String → Option StateScrape
  | "TX" => scrape_texas_data env now
  | "NM" => scrape_new_mexico_data env now
  | "UT" => scrape_utah_data env now
  | "CA" => scrape_california_data env now
  | "NV" => scrape_nevada_data env now
  | "AZ" => scrape_arizona_data env now
  | _ => none

/-- One loop iteration of `scrape_all_states` (data_manager.py
530-554) combined with the attribution column added at 558-562: a
successful scrape is extended with `epi_week`, `epi_year` and
`attribution`; a `None` result is replaced by the zero-filled fallback
dict built from `state_configs`. -/
def stateRecord (env : PageEnv) (now : String) (week : Nat) (year : Int)
    (code : String) : WeeklyRecord :=
  match scraperFor env now code with
  | some s =>
    { state := s.state, state_name := s.state_name,
      current_week_cases := s.current_week_cases,
      previous_week_cases := s.previous_week_cases,
      data_source := s.data_source, source_url := s.source_url,
      last_updated := s.last_updated, update_schedule := s.update_schedule,
      epi_week := week, epi_year := year,
      attribution := "Data courtesy of " ++ s.data_source }
  | none =>
    let m := state_configs code
    { state := code, state_name := m.name,
      current_week_cases := 0, previous_week_cases := 0,
      data_source := m.agency, source_url := "Data unavailable",
      last_updated := now, update_schedule := m.update_schedule,
      epi_week := week, epi_year := year,
      attribution := "Data courtesy of " ++ m.agency }

/-- Embedding of `scrape_all_states` (data_manager.py 514-564;
state_data_scraper.py 356-406 is identical): every state is visited in
dict order, each failure is replaced by the zero-filled fallback, and
the current epi week/year from `get_current_epi_week` is attached to
every row. -/
def scrape_all_states (env : PageEnv) (now : String) (y : Nat) (todayOrd : Int) :
    List WeeklyRecord :=
  let wk := get_current_epi_week y todayOrd
  stateOrder.map (stateRecord env now wk.1 wk.2)

/-! ## Historical ledger (data_manager.py 566-649, state_data_scraper.py 408-473) -/

/-- pandas `drop_duplicates(subset=[state, epi_week, epi_year], keep=last)`:
a row survives exactly when no later row of the frame carries the same
key, and the surviving rows keep their original order. -/
def dropDuplicatesKeepLast : List WeeklyRecord → List WeeklyRecord
  | [] => []
  | r :: rest =>
    if rest.any (fun s => decide (recordKey s = recordKey r)) then
      dropDuplicatesKeepLast rest
    else
      r :: dropDuplicatesKeepLast rest

/-- Embedding of `save_historical_data` (data_manager.py 566-598;
state_data_scraper.py 408-440 is identical): `historical` is the
frame read back from the ledger CSV (empty on `FileNotFoundError`),
`current` the freshly scraped frame.  The function returns the frame
written back to the file: when the prior ledger is non-empty, the
concatenation deduplicated by key keeping the last occurrence;
when it is empty, the current frame unchanged (no deduplication). -/
def save_historical_data (historical current : List WeeklyRecord) :
    List WeeklyRecord :=
  if historical.isEmpty then current
  else dropDuplicatesKeepLast (historical ++ current)

/-- The previous-week lookup of `load_weekly_surveillance_data`
(data_manager.py 622-629; load_southwest_weekly_surveillance_data,
state_data_scraper.py 461-468, is identical): the historical frame is
filtered by `state == row[state]` and `epi_week == current_epi_week - 1`
(note: no condition on `epi_year` and no wraparound for week 1), and
`current_week_cases` of the first matching row (`iloc[0]`) is taken;
`none` when the filter is empty. -/
def prevWeekLookup (historical : List WeeklyRecord) (state : String)
    (currentEpiWeek : Int) : Option Nat :=
  ((historical.filter fun r =>
      r.state == state && ((r.epi_week : Int) == currentEpiWeek - 1)).head?).map
    (·.current_week_cases)

/-- Modelled from the spec refinement of §4.3: the intended
`lookup_previous_week` of the claim, looking up the same state at week
`w - 1` of the same year when `w > 1`, and at the final epi-week of the
previous year (taken from the ledger itself) when `w = 1`. -/
def prevWeekLookupSpec (historical : List WeeklyRecord) (state : String)
    (w : Nat) (y : Int) : Option Nat :=
  if 1 < w then
    ((historical.filter fun r =>
        r.state == state && r.epi_week == w - 1 && r.epi_year == y).head?).map
      (·.current_week_cases)
  else
    let lastYearWeeks := (historical.filter fun r =>
        r.state == state && r.epi_year == y - 1).map (·.epi_week)
    match lastYearWeeks.max? with
    | none => none
    | some wmax =>
      ((historical.filter fun r =>
          r.state == state && r.epi_week == wmax && r.epi_year == y - 1).head?).map
        (·.current_week_cases)

/-- A minimal ledger row: only the fields that matter for the
previous-week lookup are populated. -/
def mkLedgerRow (state : String) (week : Nat) (year : Int) (cases : Nat) :
    WeeklyRecord :=
  { state := state, state_name := "", current_week_cases := cases,
    previous_week_cases := 0, data_source := "", source_url := "",
    last_updated := "", update_schedule := "",
    epi_week := week, epi_year := year, attribution := "" }

/-- The `southwest_states` dict of `generate_fallback_weekly_data`
(data_manager.py 656-663). -/
def southwest_states : List (String × String) :=
  [("TX", "Texas"), ("NM", "New Mexico"), ("UT", "Utah"),
   ("CA", "California"), ("NV", "Nevada"), ("AZ", "Arizona")]

/-- Embedding of `generate_fallback_weekly_data` (data_manager.py
651-683).  `week` is `get_current_epi_week()[0]` and `calYear` is
`datetime.now().year` (the calendar year, not the epi year). -/
def generate_fallback_weekly_data (now : String) (week : Nat) (calYear : Int) :
    List WeeklyRecord :=
  southwest_states.map fun sc =>
    { state := sc.1, state_name := sc.2,
      current_week_cases := 0, previous_week_cases := 0,
      data_source := sc.2 ++ " Department of Health (Data temporarily unavailable)",
      source_url := "N/A", last_updated := now, update_schedule := "Weekly",
      epi_week := week, epi_year := calYear,
      attribution := "Data courtesy of " ++ sc.2 ++ " Department of Health" }

/-- Outcome of the `scrape_all_states` call inside
`load_weekly_surveillance_data`: either the scraped rows, or an
exception escaping into the outer `try` (for example a pandas failure
while building the frame). -/
inductive ScrapeOutcome where
  | ok (rows : List WeeklyRecord)
  | exn
deriving DecidableEq, Repr

/-- Embedding of `load_weekly_surveillance_data` (data_manager.py
600-649).  `saveSucceeds` records whether the `save_historical_data`
call persisted anything; since that function catches every exception
itself (data_manager.py 597-598), its outcome does not influence the
returned value.  `histRead` is the result of re-reading the ledger CSV
for the previous-week comparison: `none` means the read (or the
comparison loop) raised, which the inner `try/except` at 618-632
absorbs, leaving the scraped rows unchanged. -/
def load_weekly_surveillance_data (scrape : ScrapeOutcome) (saveSucceeds : Bool)
    (histRead : Option (List WeeklyRecord)) (now : String) (week : Nat)
    (calYear : Int) : List WeeklyRecord :=
  match scrape with
  | .exn => generate_fallback_weekly_data now week calYear
  | .ok rows =>
    let _ := saveSucceeds
    let rows2 :=
      match histRead with
      | none => rows
      | some hist => rows.map fun r =>
          match prevWeekLookup hist r.state (week : Int) with
          | some v => { r with previous_week_cases := v }
          | none => r
    if rows2.isEmpty then generate_fallback_weekly_data now week calYear
    else rows2

/-! ## Source fetching with backup fallback (data_manager.py 120-144, 685-743) -/

/-- The three static data files of `self.static_files`
(data_manager.py 53-57). -/
inductive StaticKey where
  | timeline
  | mmr
  | mmr_map
deriving DecidableEq, Repr

/-- The four remote sources of `self.data_sources`
(data_manager.py 45-50). -/
inductive RemoteKey where
  | usmeasles
  | usmap_cases
  | vaccine_with
  | vaccine_without
deriving DecidableEq, Repr

/-- A dataset key of the pipeline: static file or remote source. -/
inductive DataKey where
  | static (k : StaticKey)
  | remote (k : RemoteKey)
deriving DecidableEq, Repr

/-- Iteration order of `self.static_files` in `fetch_all_data`. -/
def static_files : List StaticKey :=
  [.timeline, .mmr, .mmr_map]

/-- Iteration order of `self.data_sources` in `fetch_all_data`. -/
def data_sources : List RemoteKey :=
  [.usmeasles, .usmap_cases, .vaccine_with, .vaccine_without]

/-- The datasets the spec and `main.py` 371 mark as critical:
the timeline, the national case counts (`usmeasles`) and the state map
(`usmap_cases`). -/
def critical_datasets : List DataKey :=
  [.static .timeline, .remote .usmeasles, .remote .usmap_cases]

/-- Environment for `fetch_all_data`: the result of
`load_static_data` per static file, of `download_data` per remote
source, and of `load_backup` per remote source (`none` = failure in
each case). -/
structure FetchEnv (α : Type) where
  loadStatic : StaticKey → Option α
  download : RemoteKey → Option α
  loadBackup : RemoteKey → Option α

/-- The static-file loop of `fetch_all_data` (data_manager.py
694-705): any failed static file aborts with `None`. -/
def loadStaticLoop (env : FetchEnv α) : List StaticKey → Option (List (DataKey × α))
  | [] => some []
  | k :: ks =>
    match env.loadStatic k with
    | some d => (loadStaticLoop env ks).map (fun rest => (DataKey.static k, d) :: rest)
    | none => none

/-- The download loop of `fetch_all_data` (data_manager.py 707-739):
each remote key tries the live download, then the most recent backup;
if both fail the whole function aborts with `None`. -/
def downloadLoop (env : FetchEnv α) : List RemoteKey → Option (List (DataKey × α))
  | [] => some []
  | k :: ks =>
    match env.download k with
    | some d => (downloadLoop env ks).map (fun rest => (DataKey.remote k, d) :: rest)
    | none =>
      match env.loadBackup k with
      | some d => (downloadLoop env ks).map (fun rest => (DataKey.remote k, d) :: rest)
      | none => none

/-- The data-collection phase of `fetch_all_data` (data_manager.py
692-739), before the final `process_data` call: the assignment of a
dataset to every key, or `None` when any key could not be produced. -/
def collect_all_data (env : FetchEnv α) : Option (List (DataKey × α)) :=
  match loadStaticLoop env static_files with
  | none => none
  | some s =>
    match downloadLoop env data_sources with
    | none => none
    | some r => some (s ++ r)

/-- The exception classes relevant to `download_data`:
`requests.exceptions.RequestException` (covering network errors,
timeouts, non-2xx via `raise_for_status`, and since requests 2.27 also
`response.json()` decode failures) is caught at data_manager.py 142;
`pandas.errors.ParserError` from `pd.read_csv` is not. -/
inductive PyExn where
  | parserError
deriving DecidableEq, Repr

/-- Environment for one `download_data` call: `getOk` is whether
`requests.get` + `raise_for_status` succeed; `parseJson` / `parseCsv`
are the parse results of the body (`none` = malformed). -/
structure HttpEnv (α : Type) where
  getOk : Bool
  parseJson : Option α
  parseCsv : Option α

/-- Embedding of `download_data` (data_manager.py 120-144).  The result
is `Except`: `.error` is an exception propagating out of the function,
`.ok none` the caught-and-logged `return None` path, `.ok (some d)` a
successful parse.  `urlIsJson` is `url.endswith(json)`. -/
def download_data (env : HttpEnv α) (urlIsJson : Bool) : Except PyExn (Option α) :=
  if env.getOk = false then .ok none
  else if urlIsJson then
    match env.parseJson with
    | some a => .ok (some a)
    | none => .ok none
  else
    match env.parseCsv with
    | some a => .ok (some a)
    | none => .error .parserError

/-! ## Case-rate computation (chart_generators.py 509-516, table_generators.py 154-157) -/

/-- Floor of a rational number, computed from its normalized numerator
and denominator (`Int` division is Euclidean, which for the positive
denominator is the floor). -/
def ratFloorZ (q : ℚ) : ℤ :=
  q.num / (q.den : ℤ)

/-- Round to the nearest integer, ties to even, as numpy rounding
(used by `Series.round`) does.  `r2` is twice the fractional part
scaled by the denominator, so comparing it with the denominator
compares the fractional part with 1/2. -/
def roundHalfEven (q : ℚ) : ℤ :=
  let f := ratFloorZ q
  let r2 := 2 * (q.num - f * (q.den : ℤ))
  if r2 < (q.den : ℤ) then f
  else if (q.den : ℤ) < r2 then f + 1
  else if f % 2 = 0 then f else f + 1

/-- `Series.round(2)`: round to 2 decimal places, ties to even. -/
def round2 (q : ℚ) : ℚ :=
  (roundHalfEven (q * 100) : ℚ) / 100

/-- The case-rate column before `fillna(0)`:
`(df[cases_col] / df[population] * 100000).round(2)`.  A missing case
count or a missing population (a state absent from
`STATE_POPULATIONS`) makes the whole expression NaN. -/
def case_rate_prefill (cases population : Option ℚ) : Option ℚ :=
  match cases, population with
  | some c, some p => some (round2 (c / p * 100000))
  | _, _ => none

/-- The `case_rate` column as built at chart_generators.py 511 and
table_generators.py 156: the rounded rate with NaN replaced by 0 via
`.fillna(0)`. -/
def case_rate (cases population : Option ℚ) : ℚ :=
  (case_rate_prefill cases population).getD 0

/-! ## Reporting-year filtering of the state map (data_manager.py 804-825) -/

/-- A row of the merged `usmap` frame, reduced to the fields the
year-filtering step inspects: the geography name and the (nullable,
already `to_numeric`-coerced) year. -/
structure MapRow where
  geography : String
  year : Option Int
deriving DecidableEq, Repr

/-- pandas `Series.max()` over the year column: NaN entries are
skipped; the result is NaN (here `none`) only when no year is
present at all. -/
def maxYearPresent : List MapRow → Option Int
  | [] => none
  | r :: rs =>
    match r.year, maxYearPresent rs with
    | none, m => m
    | some v, none => some v
    | some v, some m => some (max v m)

/-- Embedding of the year-filtering step of `process_data`
(data_manager.py 804-825): filter the merged map data to year 2025;
when that is empty and the frame is non-empty, refilter to
`usmap[year_col].max()` instead (a NaN maximum, possible only when no
year is present, matches no row). -/
def filter_map_to_reporting_year (rows : List MapRow) : List MapRow :=
  let usmap2025 := rows.filter fun r => r.year == some 2025
  if usmap2025.length = 0 then
    if 0 < rows.length then
      match maxYearPresent rows with
      | some m => rows.filter fun r => r.year == some m
      | none => usmap2025
    else usmap2025
  else usmap2025

/-! ## Theorems -/

/-- The anchor produced by `week1Sunday` is the Sunday on or before
January 4: it has Python weekday 6 and lies at most 6 days before
January 4. -/
theorem week1Sunday_is_sunday_on_or_before_jan4 (y : Nat) :
    pyWeekday (week1Sunday y) = 6 ∧
    week1Sunday y ≤ jan4Ordinal y ∧ jan4Ordinal y < week1Sunday y + 7 := by
  simp only [week1Sunday, pyWeekday]
  generalize jan4Ordinal y = j
  split <;> omega

/-- Claim C2: `get_current_epi_week` computes the epi-week exactly as
specified.  The anchor is the Sunday on or before January 4 of the
year; the raw week number is `floor((date - anchor)/7) + 1`; a raw
value at most 0 yields week 52 of the previous year; a raw value of at
least 53 yields week 1 of the next year exactly when the next
January 4 falls on weekday Monday..Thursday (Python weekday value at
most 3), and week 53 of the current year otherwise; and the returned
week always lies in [1, 53]. -/
theorem C2_epi_week_bit_exact (y : Nat) (todayOrd : Int) :
    (pyWeekday (week1Sunday y) = 6 ∧
      week1Sunday y ≤ jan4Ordinal y ∧ jan4Ordinal y < week1Sunday y + 7) ∧
    get_current_epi_week y todayOrd =
      (if (todayOrd - week1Sunday y) / 7 + 1 ≤ 0 then ((52 : Nat), (y : Int) - 1)
       else if 53 ≤ (todayOrd - week1Sunday y) / 7 + 1 then
         (if pyWeekday (jan4Ordinal (y + 1)) ≤ 3 then ((1 : Nat), (y : Int) + 1)
          else ((53 : Nat), (y : Int)))
       else (((todayOrd - week1Sunday y) / 7 + 1).toNat, (y : Int))) ∧
    1 ≤ (get_current_epi_week y todayOrd).1 ∧
    (get_current_epi_week y todayOrd).1 ≤ 53 := by
  have heq : get_current_epi_week y todayOrd =
      (if (todayOrd - week1Sunday y) / 7 + 1 ≤ 0 then ((52 : Nat), (y : Int) - 1)
       else if 53 ≤ (todayOrd - week1Sunday y) / 7 + 1 then
         (if pyWeekday (jan4Ordinal (y + 1)) ≤ 3 then ((1 : Nat), (y : Int) + 1)
          else ((53 : Nat), (y : Int)))
       else (((todayOrd - week1Sunday y) / 7 + 1).toNat, (y : Int))) := by
    unfold get_current_epi_week
    by_cases h1 : (todayOrd - week1Sunday y) / 7 + 1 ≤ 0
    · simp [h1]
    · by_cases h2 : 53 ≤ (todayOrd - week1Sunday y) / 7 + 1
      · simp [h1, h2]
      · simp only [h1, h2, if_false, if_neg, if_true, Prod.mk.injEq]
        exact ⟨by omega, trivial⟩
  refine ⟨week1Sunday_is_sunday_on_or_before_jan4 y, heq, ?_, ?_⟩
  · rw [heq]
    split_ifs <;> simp <;> omega
  · rw [heq]
    split_ifs <;> simp <;> omega

/-- Claim C1 (code bug): the previous-week lookup filters the ledger
only by state and by `epi_week == current_epi_week - 1`.  At week 1 it
therefore searches for the nonexistent week 0 instead of wrapping to
the final week of the previous year, and because it never filters by
`epi_year` it can pick up a stale row of an earlier year for the same
week number.  Both divergences from the claimed behaviour are
exhibited on concrete ledgers and contrasted with the spec-modelled
lookup. -/
theorem C1_prev_week_lookup_at_failing_inputs :
    prevWeekLookup [mkLedgerRow "TX" 52 2025 9] "TX" 1 = none ∧
    prevWeekLookupSpec [mkLedgerRow "TX" 52 2025 9] "TX" 1 2026 = some 9 ∧
    prevWeekLookup [mkLedgerRow "TX" 9 2024 5, mkLedgerRow "TX" 9 2025 7] "TX" 10 = some 5 ∧
    prevWeekLookupSpec [mkLedgerRow "TX" 9 2024 5, mkLedgerRow "TX" 9 2025 7]
      "TX" 10 2025 = some 7 := by
  refine ⟨rfl, ?_, rfl, ?_⟩ <;> decide

/-- Rows surviving `dropDuplicatesKeepLast` come from the original
frame. -/
theorem mem_of_mem_dropDuplicatesKeepLast {r : WeeklyRecord} :
    ∀ {l : List WeeklyRecord}, r ∈ dropDuplicatesKeepLast l → r ∈ l := by
  intro l
  induction l with
  | nil => intro h; exact absurd h (List.not_mem_nil r)
  | cons x xs ih =>
    intro h
    unfold dropDuplicatesKeepLast at h
    split at h
    · exact List.mem_cons_of_mem x (ih h)
    · rcases List.mem_cons.mp h with h1 | h2
      · exact h1 ▸ List.mem_cons_self x xs
      · exact List.mem_cons_of_mem x (ih h2)

/-- After `dropDuplicatesKeepLast` the ledger keys are pairwise
distinct. -/
theorem nodup_keys_dropDuplicatesKeepLast :
    ∀ l : List WeeklyRecord, ((dropDuplicatesKeepLast l).map recordKey).Nodup := by
  intro l
  induction l with
  | nil => simp [dropDuplicatesKeepLast]
  | cons x xs ih =>
    unfold dropDuplicatesKeepLast
    split
    · exact ih
    · rename_i hnot
      simp only [List.map_cons, List.nodup_cons]
      refine ⟨?_, ih⟩
      intro hmem
      rcases List.mem_map.mp hmem with ⟨s, hs, hkey⟩
      have hs2 := mem_of_mem_dropDuplicatesKeepLast hs
      have hany : xs.any (fun s => decide (recordKey s = recordKey x)) = true :=
        List.any_eq_true.mpr ⟨s, hs2, by simp [hkey]⟩
      exact hnot hany

/-- In a frame with pairwise distinct keys, `find?` on a member key
returns exactly that member. -/
theorem find_eq_of_nodup_keys {r : WeeklyRecord} :
    ∀ {l : List WeeklyRecord}, r ∈ l → (l.map recordKey).Nodup →
      l.find? (fun s => decide (recordKey s = recordKey r)) = some r := by
  intro l
  induction l with
  | nil => intro h _; exact absurd h (List.not_mem_nil r)
  | cons x xs ih =>
    intro hmem hnd
    simp only [List.map_cons, List.nodup_cons] at hnd
    rcases List.mem_cons.mp hmem with h1 | h2
    · subst h1
      simp [List.find?]
    · have hx : ¬ recordKey x = recordKey r := by
        intro he
        exact hnd.1 (he ▸ List.mem_map_of_mem recordKey h2)
      simp only [List.find?]
      rw [decide_eq_false hx]
      exact ih h2 hnd.2

/-- A frame whose keys are already pairwise distinct is unchanged by
`dropDuplicatesKeepLast`. -/
theorem dropDuplicatesKeepLast_eq_self :
    ∀ {l : List WeeklyRecord}, (l.map recordKey).Nodup →
      dropDuplicatesKeepLast l = l := by
  intro l
  induction l with
  | nil => intro _; rfl
  | cons x xs ih =>
    intro hnd
    simp only [List.map_cons, List.nodup_cons] at hnd
    unfold dropDuplicatesKeepLast
    rw [if_neg, ih hnd.2]
    intro hany
    rcases List.any_eq_true.mp hany with ⟨s, hs, hkey⟩
    simp only [decide_eq_true_eq] at hkey
    exact hnd.1 (hkey ▸ List.mem_map_of_mem recordKey hs)

/-- For a record `r` of the freshly scraped batch `l₂` (whose keys are
pairwise distinct), the deduplicated concatenation resolves the key of
`r` to `r` itself: the batch row wins over every prior ledger row. -/
theorem find_dropDuplicatesKeepLast_append {r : WeeklyRecord} :
    ∀ (l₁ : List WeeklyRecord) {l₂ : List WeeklyRecord}, r ∈ l₂ →
      (l₂.map recordKey).Nodup →
      (dropDuplicatesKeepLast (l₁ ++ l₂)).find?
        (fun s => decide (recordKey s = recordKey r)) = some r := by
  intro l₁
  induction l₁ with
  | nil =>
    intro l₂ hmem hnd
    rw [List.nil_append, dropDuplicatesKeepLast_eq_self hnd]
    exact find_eq_of_nodup_keys hmem hnd
  | cons x l₁ ih =>
    intro l₂ hmem hnd
    rw [List.cons_append]
    unfold dropDuplicatesKeepLast
    split
    · exact ih hmem hnd
    · rename_i hnot
      have hx : ¬ recordKey x = recordKey r := by
        intro he
        refine hnot (List.any_eq_true.mpr ⟨r, ?_, by simp [he]⟩)
        exact List.mem_append_right l₁ hmem
      simp only [List.find?]
      rw [decide_eq_false hx]
      exact ih hmem hnd

/-- Claim C3: after `save_historical_data`, the persisted ledger has
exactly one row per `(state, epi_week, epi_year)` key, and for every
record of the freshly scraped batch the surviving row for its key is
that record in full (last-write-wins, no field-level merge).  The
hypothesis — the batch itself has pairwise distinct keys — is
guaranteed by `scrape_all_states`, which emits one row per state for a
single epi week. -/
theorem C3_ledger_upsert (historical current : List WeeklyRecord)
    (h : (current.map recordKey).Nodup) :
    ((save_historical_data historical current).map recordKey).Nodup ∧
    ∀ r ∈ current,
      (save_historical_data historical current).find?
        (fun s => decide (recordKey s = recordKey r)) = some r := by
  unfold save_historical_data
  split
  · exact ⟨h, fun r hr => find_eq_of_nodup_keys hr h⟩
  · exact ⟨nodup_keys_dropDuplicatesKeepLast _,
      fun r hr => find_dropDuplicatesKeepLast_append historical hr h⟩

/-- The prior TX row of the spec scenario: week 10 of 2025 with 3
cases. -/
def txOldRecord : WeeklyRecord := mkLedgerRow "TX" 10 2025 3

/-- The freshly scraped TX row for the same key: 8 cases, different
attribution fields. -/
def txNewRecord : WeeklyRecord :=
  { mkLedgerRow "TX" 10 2025 8 with
    state_name := "Texas",
    data_source := "Texas Department of State Health Services" }

/-- Witness for C3 at the spec scenario: a ledger holding the old TX
week-10 row, upserted with a new TX week-10 row, keeps exactly one row
for the key and it is the new record. -/
theorem C3_ledger_upsert_witness :
    ((save_historical_data [txOldRecord] [txNewRecord]).map recordKey).Nodup ∧
    (save_historical_data [txOldRecord] [txNewRecord]).find?
      (fun s => decide (recordKey s = recordKey txNewRecord)) = some txNewRecord :=
  ⟨(C3_ledger_upsert [txOldRecord] [txNewRecord] (by decide)).1,
   (C3_ledger_upsert [txOldRecord] [txNewRecord] (by decide)).2 txNewRecord (by decide)⟩

/-- The static-file loop aborts exactly when some static file fails to
load. -/
theorem loadStaticLoop_eq_none_iff {α : Type} (env : FetchEnv α) :
    ∀ ks : List StaticKey,
      loadStaticLoop env ks = none ↔ ∃ k ∈ ks, env.loadStatic k = none := by
  intro ks
  induction ks with
  | nil => simp [loadStaticLoop]
  | cons k ks ih =>
    unfold loadStaticLoop
    cases hk : env.loadStatic k with
    | none => simp [hk]
    | some d => simp [hk, Option.map_eq_none', ih]

/-- On success the static-file loop returns one entry per static key,
in order. -/
theorem loadStaticLoop_keys {α : Type} (env : FetchEnv α) :
    ∀ (ks : List StaticKey) (res : List (DataKey × α)),
      loadStaticLoop env ks = some res →
      res.map Prod.fst = ks.map DataKey.static := by
  intro ks
  induction ks with
  | nil =>
    intro res h
    simp only [loadStaticLoop, Option.some.injEq] at h
    subst h
    rfl
  | cons k ks ih =>
    intro res h
    unfold loadStaticLoop at h
    cases hk : env.loadStatic k with
    | none => rw [hk] at h; exact absurd h (by simp)
    | some d =>
      rw [hk] at h
      cases hrec : loadStaticLoop env ks with
      | none => rw [hrec] at h; simp at h
      | some rest =>
        rw [hrec] at h
        simp only [Option.map_some', Option.some.injEq] at h
        subst h
        simp [ih rest hrec]

/-- The download loop aborts exactly when some remote source fails both
the live download and the backup. -/
theorem downloadLoop_eq_none_iff {α : Type} (env : FetchEnv α) :
    ∀ ks : List RemoteKey,
      downloadLoop env ks = none ↔
        ∃ k ∈ ks, env.download k = none ∧ env.loadBackup k = none := by
  intro ks
  induction ks with
  | nil => simp [downloadLoop]
  | cons k ks ih =>
    unfold downloadLoop
    cases hk : env.download k with
    | some d => simp [hk, Option.map_eq_none', ih]
    | none =>
      cases hb : env.loadBackup k with
      | some d => simp [hk, hb, Option.map_eq_none', ih]
      | none => simp [hk, hb]

/-- On success the download loop returns one entry per remote key, in
order. -/
theorem downloadLoop_keys {α : Type} (env : FetchEnv α) :
    ∀ (ks : List RemoteKey) (res : List (DataKey × α)),
      downloadLoop env ks = some res →
      res.map Prod.fst = ks.map DataKey.remote := by
  intro ks
  induction ks with
  | nil =>
    intro res h
    simp only [downloadLoop, Option.some.injEq] at h
    subst h
    rfl
  | cons k ks ih =>
    intro res h
    unfold downloadLoop at h
    have step : ∀ d, (downloadLoop env ks).map
        (fun rest => (DataKey.remote k, d) :: rest) = some res →
        res.map Prod.fst = (k :: ks).map DataKey.remote := by
      intro d hd
      cases hrec : downloadLoop env ks with
      | none => rw [hrec] at hd; simp at hd
      | some rest =>
        rw [hrec] at hd
        simp only [Option.map_some', Option.some.injEq] at hd
        subst hd
        simp [ih rest hrec]
    cases hk : env.download k with
    | some d =>
      rw [hk] at h
      exact step d h
    | none =>
      rw [hk] at h
      cases hb : env.loadBackup k with
      | some d =>
        rw [hb] at h
        exact step d h
      | none => rw [hb] at h; exact absurd h (by simp)

/-- Claim C4, amended: the data-collection phase of `fetch_all_data`
treats every configured dataset as required.  It returns `None` exactly
when some static file fails to load or some remote source fails both
the live fetch and the backup (critical or not); and whenever it
succeeds, every configured key — static files first, then remote
sources — is present in the result. -/
theorem C4_all_datasets_required {α : Type} (env : FetchEnv α) :
    (collect_all_data env = none ↔
      (∃ k ∈ static_files, env.loadStatic k = none) ∨
      (∃ k ∈ data_sources, env.download k = none ∧ env.loadBackup k = none)) ∧
    ∀ res, collect_all_data env = some res →
      res.map Prod.fst =
        static_files.map DataKey.static ++ data_sources.map DataKey.remote := by
  constructor
  · unfold collect_all_data
    cases hs : loadStaticLoop env static_files with
    | none =>
      simp only [true_iff]
      exact Or.inl ((loadStaticLoop_eq_none_iff env static_files).mp hs)
    | some s =>
      cases hr : downloadLoop env data_sources with
      | none =>
        simp only [true_iff]
        exact Or.inr ((downloadLoop_eq_none_iff env data_sources).mp hr)
      | some r =>
        simp only [reduceCtorEq, false_iff, not_or]
        constructor
        · intro hc
          have hcn := (loadStaticLoop_eq_none_iff env static_files).mpr hc
          rw [hs] at hcn
          exact absurd hcn (by simp)
        · intro hc
          have hcn := (downloadLoop_eq_none_iff env data_sources).mpr hc
          rw [hr] at hcn
          exact absurd hcn (by simp)
  · intro res h
    unfold collect_all_data at h
    cases hs : loadStaticLoop env static_files with
    | none => rw [hs] at h; simp at h
    | some s =>
      rw [hs] at h
      cases hr : downloadLoop env data_sources with
      | none => rw [hr] at h; simp at h
      | some r =>
        rw [hr] at h
        simp only [Option.some.injEq] at h
        subst h
        rw [List.map_append, loadStaticLoop_keys env static_files s hs,
          downloadLoop_keys env data_sources r hr]

/-- A fetch environment where every dataset is available except the
non-critical `vaccine_with` source, which fails both the live download
and the backup. -/
def c4Env : FetchEnv Unit :=
  { loadStatic := fun _ => some (),
    download := fun k => if k = .vaccine_with then none else some (),
    loadBackup := fun _ => none }

/-- Claim C4 counterexample: with every critical dataset producible and
only the non-critical `vaccine_with` source unavailable from both fetch
and backup, `fetch_all_data` still returns no result, contradicting the
claim that the pipeline fails only for critical datasets and otherwise
produces results for all other keys. -/
theorem C4_noncritical_failure_aborts :
    collect_all_data c4Env = none ∧
    DataKey.remote RemoteKey.vaccine_with ∉ critical_datasets ∧
    c4Env.loadStatic StaticKey.timeline = some () ∧
    c4Env.download RemoteKey.usmeasles = some () ∧
    c4Env.download RemoteKey.usmap_cases = some () := by
  refine ⟨rfl, by decide, rfl, rfl, rfl⟩

/-- A fetch environment where every dataset downloads successfully. -/
def c4AllEnv : FetchEnv Unit :=
  { loadStatic := fun _ => some (),
    download := fun _ => some (),
    loadBackup := fun _ => none }

/-- Witness for the amended C4: in the all-available environment the
collection succeeds and yields exactly the seven configured keys. -/
theorem C4_all_datasets_required_witness :
    ([((DataKey.static StaticKey.timeline : DataKey), ()),
      (DataKey.static StaticKey.mmr, ()),
      (DataKey.static StaticKey.mmr_map, ()),
      (DataKey.remote RemoteKey.usmeasles, ()),
      (DataKey.remote RemoteKey.usmap_cases, ()),
      (DataKey.remote RemoteKey.vaccine_with, ()),
      (DataKey.remote RemoteKey.vaccine_without, ())] :
        List (DataKey × Unit)).map Prod.fst =
      static_files.map DataKey.static ++ data_sources.map DataKey.remote ∧
    collect_all_data c4Env = none :=
  ⟨(C4_all_datasets_required c4AllEnv).2 _ rfl,
   (C4_all_datasets_required c4Env).1.mpr
     (Or.inr ⟨RemoteKey.vaccine_with, by decide, rfl, rfl⟩)⟩

/-- Every record emitted by `scrape_all_states` carries the state code
of the scraper that produced it (both the success and the fallback
branch set it to the code being visited). -/
theorem stateRecord_state_eq (env : PageEnv) (now : String) (week : Nat)
    (year : Int) :
    ∀ code ∈ stateOrder, (stateRecord env now week year code).state = code := by
  intro code hc
  fin_cases hc
  · simp only [stateRecord, scraperFor, scrape_texas_data]
    cases env.fetch tx_outbreak_url <;> simp
  · simp only [stateRecord, scraperFor, scrape_new_mexico_data]
    cases env.fetch nm_main_url <;> simp
  · simp only [stateRecord, scraperFor, scrape_utah_data]
    cases env.fetch ut_main_url <;> simp
  · simp only [stateRecord, scraperFor, scrape_california_data]
    cases env.fetch ca_main_url <;> simp
  · simp only [stateRecord, scraperFor, scrape_nevada_data]
    cases env.fetch nv_main_url <;> simp
  · simp only [stateRecord, scraperFor, scrape_arizona_data]
    cases env.fetch az_main_url <;> simp

/-- Claim C5: each per-state scraper tries its configured pattern list
in order against the fetched page text and takes the integer captured
by the first matching pattern; when no pattern matches the extracted
count is 0; and on both a no-match and a fetch failure the emitted
record carries `current_week_cases = 0` rather than being absent or
raising.  Nevada and Arizona have no configured patterns, so their
count is always the default 0. -/
theorem C5_first_pattern_wins_else_zero (env : PageEnv) (now text : String)
    (week : Nat) (year : Int) :
    (∀ ps₁ p ps₂ v, (∀ q ∈ ps₁, env.search q text = none) →
      env.search p text = some v →
      firstPatternMatch env.search (ps₁ ++ p :: ps₂) text = v) ∧
    (∀ ps, (∀ q ∈ ps, env.search q text = none) →
      firstPatternMatch env.search ps text = 0) ∧
    (env.fetch tx_outbreak_url = some text →
      (stateRecord env now week year "TX").current_week_cases =
        firstPatternMatch env.search texas_case_patterns text) ∧
    (env.fetch nm_main_url = some text →
      (stateRecord env now week year "NM").current_week_cases =
        firstPatternMatch env.search new_mexico_case_patterns text) ∧
    (env.fetch ut_main_url = some text →
      (stateRecord env now week year "UT").current_week_cases =
        firstPatternMatch env.search utah_case_patterns text) ∧
    (env.fetch ca_main_url = some text →
      (stateRecord env now week year "CA").current_week_cases =
        firstPatternMatch env.search california_case_patterns text) ∧
    (env.fetch nv_main_url = some text →
      (stateRecord env now week year "NV").current_week_cases = 0) ∧
    (env.fetch az_main_url = some text →
      (stateRecord env now week year "AZ").current_week_cases = 0) ∧
    (∀ code ∈ stateOrder, scraperFor env now code = none →
      (stateRecord env now week year code).current_week_cases = 0) := by
  refine ⟨?_, ?_, ?_, ?_, ?_, ?_, ?_, ?_, ?_⟩
  · intro ps₁
    induction ps₁ with
    | nil =>
      intro p ps₂ v _ hp
      simp [firstPatternMatch, hp]
    | cons q qs ih =>
      intro p ps₂ v hnone hp
      have hq : env.search q text = none := hnone q (List.mem_cons_self q qs)
      simp only [List.cons_append, firstPatternMatch, hq]
      exact ih p ps₂ v (fun q hqm => hnone q (List.mem_cons_of_mem _ hqm)) hp
  · intro ps
    induction ps with
    | nil => intro _; rfl
    | cons q qs ih =>
      intro hnone
      have hq : env.search q text = none := hnone q (List.mem_cons_self q qs)
      simp only [firstPatternMatch, hq]
      exact ih (fun q hqm => hnone q (List.mem_cons_of_mem _ hqm))
  · intro h
    simp [stateRecord, scraperFor, scrape_texas_data, h]
  · intro h
    simp [stateRecord, scraperFor, scrape_new_mexico_data, h]
  · intro h
    simp [stateRecord, scraperFor, scrape_utah_data, h]
  · intro h
    simp [stateRecord, scraperFor, scrape_california_data, h]
  · intro h
    simp [stateRecord, scraperFor, scrape_nevada_data, h]
  · intro h
    simp [stateRecord, scraperFor, scrape_arizona_data, h]
  · intro code hc hnone
    simp [stateRecord, hnone]

/-- A page environment in which only the Texas fetch succeeds, the
first Texas pattern fails, and the second Texas pattern captures 7. -/
def c5Env : PageEnv :=
  { fetch := fun url => if url = tx_outbreak_url then some "TXPAGE" else none,
    search := fun p t =>
      if p = "reporting\\s+(\\d+)\\s+confirmed\\s+cases" && t = "TXPAGE" then some 7
      else none }

/-- Witness for C5: in `c5Env` the Texas record takes the value 7
captured by the second pattern (the first one having failed), and the
Arizona record — whose fetch fails — is emitted with 0 cases. -/
theorem C5_first_pattern_wins_else_zero_witness :
    (stateRecord c5Env "t" 30 2025 "TX").current_week_cases = 7 ∧
    (stateRecord c5Env "t" 30 2025 "AZ").current_week_cases = 0 := by
  have h := C5_first_pattern_wins_else_zero c5Env "t" "TXPAGE" 30 2025
  refine ⟨?_, ?_⟩
  · rw [h.2.2.1 (by decide)]
    decide
  · exact h.2.2.2.2.2.2.2.2 "AZ" (by decide) (by decide)

/-- Claim C8: `scrape_all_states` visits the six configured states in
dict order and returns one record per state; a state whose scraper
returns no data gets the zero-filled record built from that state
agency metadata (with the courtesy attribution); and the record of
each state depends only on that state scrape result, so the other
states records are unchanged by any other state failure. -/
theorem C8_per_state_failure_isolation (env env2 : PageEnv) (now : String)
    (y : Nat) (todayOrd : Int) :
    (scrape_all_states env now y todayOrd).map (·.state) = stateOrder ∧
    (scrape_all_states env now y todayOrd).length = 6 ∧
    (∀ code ∈ stateOrder, ∀ week year, scraperFor env now code = none →
      stateRecord env now week year code =
        { state := code, state_name := (state_configs code).name,
          current_week_cases := 0, previous_week_cases := 0,
          data_source := (state_configs code).agency,
          source_url := "Data unavailable", last_updated := now,
          update_schedule := (state_configs code).update_schedule,
          epi_week := week, epi_year := year,
          attribution := "Data courtesy of " ++ (state_configs code).agency }) ∧
    (∀ code week year, scraperFor env now code = scraperFor env2 now code →
      stateRecord env now week year code = stateRecord env2 now week year code) := by
  refine ⟨?_, ?_, ?_, ?_⟩
  · have h := stateRecord_state_eq env now (get_current_epi_week y todayOrd).1
      (get_current_epi_week y todayOrd).2
    simp only [scrape_all_states, stateOrder, List.map_cons, List.map_nil]
    rw [h "TX" (by decide), h "NM" (by decide), h "UT" (by decide),
      h "CA" (by decide), h "NV" (by decide), h "AZ" (by decide)]
  · simp [scrape_all_states, stateOrder]
  · intro code hc week year hnone
    simp [stateRecord, hnone]
  · intro code week year hagree
    unfold stateRecord
    rw [hagree]

/-- A page environment in which every fetch fails. -/
def c8Env : PageEnv :=
  { fetch := fun _ => none, search := fun _ _ => none }

/-- Witness for C8: with every fetch failing, the Texas slot of the
scrape still yields the explicit zero-filled record carrying the Texas
agency attribution. -/
theorem C8_per_state_failure_isolation_witness :
    stateRecord c8Env "t" 30 2025 "TX" =
      { state := "TX", state_name := "Texas",
        current_week_cases := 0, previous_week_cases := 0,
        data_source := "Texas Department of State Health Services",
        source_url := "Data unavailable", last_updated := "t",
        update_schedule := "Weekly on Tuesdays",
        epi_week := 30, epi_year := 2025,
        attribution := "Data courtesy of Texas Department of State Health Services" } :=
  (C8_per_state_failure_isolation c8Env c8Env "t" 0 0).2.2.1 "TX" (by decide)
    30 2025 rfl

/-- Claim C6 counterexample: a row with 100 cases and an unknown
population.  Before `fillna(0)` the rate is indeed missing, but the
`case_rate` column the pipeline actually keeps holds the ordinary
number 0 for that row — not a missing value, contradicting the claim
that unknown population yields a missing case rate. -/
theorem C6_missing_population_rate_is_zero :
    case_rate (some 100) none = 0 ∧
    case_rate_prefill (some 100) none = none :=
  ⟨rfl, rfl⟩

/-- Claim C6, amended: for a known case count and a known (positive)
population the derived rate is `(cases / population) * 100000` rounded
half-to-even to 2 decimal places; a row with unknown population or
unknown case count gets the rate 0 (the missing value is filled with
0 by `.fillna(0)`), with no error and no divide-by-zero propagation. -/
theorem C6_case_rate_formula (c p : ℚ) (hp : 0 < p) (co po : Option ℚ) :
    case_rate (some c) (some p) = round2 (c / p * 100000) ∧
    case_rate co none = 0 ∧
    case_rate none po = 0 := by
  refine ⟨rfl, ?_, ?_⟩
  · cases co <;> rfl
  · cases po <;> rfl

/-- Witness for the amended C6 at the spec example: 100 cases over a
population of 1,000,000 give a rate of exactly 10 per 100,000. -/
theorem C6_case_rate_formula_witness :
    (0 : ℚ) < 1000000 ∧ case_rate (some 100) (some 1000000) = 10 := by
  constructor
  · norm_num
  · rw [(C6_case_rate_formula 100 1000000 (by norm_num) none none).1]
    norm_num [round2, roundHalfEven, ratFloorZ]

/-- An HTTP environment with a successful request whose body fails to
parse as CSV. -/
def c7Env : HttpEnv Unit :=
  { getOk := true, parseJson := some (), parseCsv := none }

/-- An HTTP environment where the request itself raises
(`requests.exceptions.RequestException`). -/
def c7FailEnv : HttpEnv Unit :=
  { getOk := false, parseJson := none, parseCsv := none }

/-- Claim C7 counterexample: for a CSV URL whose response body is
malformed, `download_data` does not return `None` — the
`pandas.errors.ParserError` raised by `pd.read_csv` is not a
`requests.exceptions.RequestException`, so it escapes the handler and
propagates to the caller (and through the fetch/backup loop of
`fetch_all_data`, which has no handler of its own). -/
theorem C7_malformed_csv_escapes :
    download_data c7Env false = .error .parserError ∧
    download_data c7Env false ≠ .ok none :=
  ⟨rfl, by simp [download_data, c7Env]⟩

/-- Claim C7, amended: `download_data` returns `None` on any
network/timeout/non-2xx failure (and on a malformed JSON body, whose
decode error is a `RequestException` subclass in requests 2.27+), and
returns the parsed payload on success; but a malformed CSV body raises
a pandas `ParserError` that propagates out of the function. -/
theorem C7_download_error_paths (α : Type) (env : HttpEnv α) (urlIsJson : Bool) :
    (env.getOk = false → download_data env urlIsJson = .ok none) ∧
    (env.getOk = true → urlIsJson = true → env.parseJson = none →
      download_data env urlIsJson = .ok none) ∧
    (env.getOk = true → urlIsJson = false → env.parseCsv = none →
      download_data env urlIsJson = .error .parserError) ∧
    (∀ a, env.getOk = true → urlIsJson = true → env.parseJson = some a →
      download_data env urlIsJson = .ok (some a)) ∧
    (∀ a, env.getOk = true → urlIsJson = false → env.parseCsv = some a →
      download_data env urlIsJson = .ok (some a)) := by
  refine ⟨?_, ?_, ?_, ?_, ?_⟩
  · intro h
    simp [download_data, h]
  · intro h hu hj
    subst hu
    simp [download_data, h, hj]
  · intro h hu hc
    subst hu
    simp [download_data, h, hc]
  · intro a h hu hj
    subst hu
    simp [download_data, h, hj]
  · intro a h hu hc
    subst hu
    simp [download_data, h, hc]

/-- Witness for the amended C7: the malformed-CSV environment raises
the parser error, and the failed-request environment returns `None`. -/
theorem C7_download_error_paths_witness :
    download_data c7Env false = .error .parserError ∧
    download_data c7FailEnv true = .ok none :=
  ⟨(C7_download_error_paths Unit c7Env false).2.2.1 rfl rfl rfl,
   (C7_download_error_paths Unit c7FailEnv true).1 rfl⟩

/-- A non-NaN maximum of the year column is attained by some row. -/
theorem maxYearPresent_attained :
    ∀ (rows : List MapRow) (m : Int), maxYearPresent rows = some m →
      ∃ r ∈ rows, r.year = some m := by
  intro rows
  induction rows with
  | nil => intro m h; simp [maxYearPresent] at h
  | cons r rs ih =>
    intro m h
    unfold maxYearPresent at h
    cases hr : r.year with
    | none =>
      rw [hr] at h
      rcases ih m h with ⟨s, hs, hy⟩
      exact ⟨s, List.mem_cons_of_mem r hs, hy⟩
    | some v =>
      rw [hr] at h
      cases hm : maxYearPresent rs with
      | none =>
        rw [hm] at h
        simp only [Option.some.injEq] at h
        exact ⟨r, List.mem_cons_self r rs, by rw [hr, h]⟩
      | some m0 =>
        rw [hm] at h
        simp only [Option.some.injEq] at h
        rcases le_total m0 v with hle | hle
        · have : m = v := by rw [← h]; exact max_eq_left hle
          exact ⟨r, List.mem_cons_self r rs, by rw [hr, this]⟩
        · have hm0 : m = m0 := by rw [← h]; exact max_eq_right hle
          rcases ih m0 hm with ⟨s, hs, hy⟩
          exact ⟨s, List.mem_cons_of_mem r hs, by rw [hy, hm0]⟩

/-- Claim C9: the merged state-map data is filtered to the current
reporting year (hard-coded 2025); when no 2025 row exists but some row
carries a year, the rows of the most recent year present are kept
instead, and that result is non-empty. -/
theorem C9_reporting_year_fallback (rows : List MapRow) :
    ((rows.filter fun r => r.year == some 2025) ≠ [] →
      filter_map_to_reporting_year rows =
        rows.filter fun r => r.year == some 2025) ∧
    ((rows.filter fun r => r.year == some 2025) = [] →
      ∀ m, maxYearPresent rows = some m →
        filter_map_to_reporting_year rows =
          (rows.filter fun r => r.year == some m) ∧
        filter_map_to_reporting_year rows ≠ []) := by
  constructor
  · intro h
    unfold filter_map_to_reporting_year
    rw [if_neg]
    simpa using h
  · intro h m hm
    rcases maxYearPresent_attained rows m hm with ⟨r, hr, hy⟩
    have hne : rows ≠ [] := by
      intro hnil
      rw [hnil] at hr
      exact absurd hr (List.not_mem_nil r)
    have heq : filter_map_to_reporting_year rows =
        rows.filter fun r => r.year == some m := by
      unfold filter_map_to_reporting_year
      rw [if_pos (by simp [h]), if_pos (by simpa [List.length_pos] using hne), hm]
    refine ⟨heq, ?_⟩
    rw [heq]
    intro hnil
    have : r ∈ rows.filter fun r => r.year == some m :=
      List.mem_filter.mpr ⟨hr, by simp [hy]⟩
    rw [hnil] at this
    exact absurd this (List.not_mem_nil r)

/-- A merged map frame with a 2024 row and a row with no year. -/
def c9Rows : List MapRow :=
  [⟨"Texas", some 2024⟩, ⟨"Ohio", none⟩]

/-- Witness for C9: the frame with no 2025 rows but a 2024 row falls
back to exactly the 2024 rows, a non-empty result. -/
theorem C9_reporting_year_fallback_witness :
    filter_map_to_reporting_year c9Rows = [⟨"Texas", some 2024⟩] ∧
    filter_map_to_reporting_year c9Rows ≠ [] := by
  have h := (C9_reporting_year_fallback c9Rows).2 (by decide) 2024 (by decide)
  exact ⟨h.1.trans (by decide), h.2⟩

/-- The scraped TX row used in the C10 counterexample: 5 cases this
week, a live data source, no availability note. -/
def c10ScrapedRow : WeeklyRecord :=
  { state := "TX", state_name := "Texas", current_week_cases := 5,
    previous_week_cases := 0,
    data_source := "Texas Department of State Health Services",
    source_url := tx_outbreak_url, last_updated := "t",
    update_schedule := "Weekly on Tuesdays", epi_week := 30,
    epi_year := 2025,
    attribution := "Data courtesy of Texas Department of State Health Services" }

/-- Claim C10 counterexample: when the historical persistence and the
previous-week comparison both fail but the scrape succeeded, the
function returns the scraped rows, not the fallback dataset; and the
availability note of the fallback rows lives in the `data_source`
string, while the `attribution` column is a plain courtesy line. -/
theorem C10_internal_failures_not_fallback :
    load_weekly_surveillance_data (.ok [c10ScrapedRow]) false none "t" 30 2025 =
      [c10ScrapedRow] ∧
    load_weekly_surveillance_data (.ok [c10ScrapedRow]) false none "t" 30 2025 ≠
      generate_fallback_weekly_data "t" 30 2025 ∧
    (generate_fallback_weekly_data "t" 30 2025).head?.map (·.attribution) =
      some "Data courtesy of Texas Department of Health" ∧
    (generate_fallback_weekly_data "t" 30 2025).head?.map (·.data_source) =
      some "Texas Department of Health (Data temporarily unavailable)" := by
  refine ⟨rfl, by decide, rfl, rfl⟩

/-- Claim C10, amended: `load_weekly_surveillance_data` is total at the
pipeline boundary — it never raises and never returns an empty frame.
It returns the six-row fallback dataset (one row per TX, NM, UT, CA,
NV, AZ, all case counts 0, the availability note carried in the
`data_source` attribution string) exactly when the scrape raises out of
`scrape_all_states` or produces no rows; failures of the historical
persistence or of the previous-week comparison are absorbed by their
own handlers and the scraped rows are returned with their states and
current-week counts intact. -/
theorem C10_total_with_fallback (saveOk : Bool)
    (histRead : Option (List WeeklyRecord)) (now : String) (week : Nat)
    (calYear : Int) :
    load_weekly_surveillance_data .exn saveOk histRead now week calYear =
      generate_fallback_weekly_data now week calYear ∧
    load_weekly_surveillance_data (.ok []) saveOk histRead now week calYear =
      generate_fallback_weekly_data now week calYear ∧
    (∀ rows, rows ≠ [] →
      (load_weekly_surveillance_data (.ok rows) saveOk histRead now week
        calYear).map (·.state) = rows.map (·.state) ∧
      (load_weekly_surveillance_data (.ok rows) saveOk histRead now week
        calYear).map (·.current_week_cases) = rows.map (·.current_week_cases) ∧
      load_weekly_surveillance_data (.ok rows) saveOk histRead now week
        calYear ≠ []) ∧
    (generate_fallback_weekly_data now week calYear).map (·.state) = stateOrder ∧
    (∀ r ∈ generate_fallback_weekly_data now week calYear,
      r.current_week_cases = 0 ∧ r.previous_week_cases = 0 ∧
      r.data_source =
        r.state_name ++ " Department of Health (Data temporarily unavailable)") ∧
    generate_fallback_weekly_data now week calYear ≠ [] := by
  refine ⟨rfl, ?_, ?_, ?_, ?_, ?_⟩
  · cases histRead <;> rfl
  · intro rows hne
    unfold load_weekly_surveillance_data
    cases histRead with
    | none =>
      simp only
      rw [if_neg (by simpa using hne)]
      exact ⟨rfl, rfl, hne⟩
    | some hist =>
      simp only
      have hmap : ∀ f : WeeklyRecord → WeeklyRecord,
          (∀ r, (f r).state = r.state ∧ (f r).current_week_cases =
            r.current_week_cases) →
          ((rows.map f).map (·.state) = rows.map (·.state) ∧
           (rows.map f).map (·.current_week_cases) =
             rows.map (·.current_week_cases)) := by
        intro f hf
        constructor
        · rw [List.map_map]
          exact List.map_congr_left fun r _ => (hf r).1
        · rw [List.map_map]
          exact List.map_congr_left fun r _ => (hf r).2
      have hfields : ∀ r : WeeklyRecord,
          ((match prevWeekLookup hist r.state (week : Int) with
            | some v => { r with previous_week_cases := v }
            | none => r) : WeeklyRecord).state = r.state ∧
          ((match prevWeekLookup hist r.state (week : Int) with
            | some v => { r with previous_week_cases := v }
            | none => r) : WeeklyRecord).current_week_cases =
            r.current_week_cases := by
        intro r
        cases prevWeekLookup hist r.state (week : Int) <;> exact ⟨rfl, rfl⟩
      have hlen : (rows.map fun r =>
          (match prevWeekLookup hist r.state (week : Int) with
            | some v => { r with previous_week_cases := v }
            | none => r)) ≠ [] := by
        simpa using hne
      rw [if_neg (by simpa using hlen)]
      exact ⟨(hmap _ hfields).1, (hmap _ hfields).2, hlen⟩
  · rfl
  · intro r hr
    simp only [generate_fallback_weekly_data, southwest_states, List.map_cons,
      List.map_nil] at hr
    fin_cases hr <;> exact ⟨rfl, rfl, rfl⟩
  · intro h
    have : (6 : Nat) = 0 := by
      simpa [generate_fallback_weekly_data, southwest_states] using
        congrArg List.length h
    exact absurd this (by decide)

/-- Witness for the amended C10: with a failed persistence step and a
failed comparison read, the single scraped TX row is returned intact
and non-empty. -/
theorem C10_total_with_fallback_witness :
    (load_weekly_surveillance_data (.ok [c10ScrapedRow]) false none "t" 30
      2025).map (·.state) = ["TX"] ∧
    load_weekly_surveillance_data (.ok [c10ScrapedRow]) false none "t" 30
      2025 ≠ [] := by
  have h := (C10_total_with_fallback false none "t" 30 2025).2.2.1
    [c10ScrapedRow] (by decide)
  exact ⟨h.1.trans (by decide), h.2.2⟩
